import Mathlib

/-!
Verification of the payment-service (src/services/payment-service/src/main.rs).

The service is a small HTTP surface over two pieces of shared state: an
in-memory list of `Payment` records and a Prometheus counter.  We embed the
handlers as pure state transformers over that state.  Request-level
nondeterminism (the generated UUID and the creation timestamp) is passed in
as explicit inputs; the `Authorization` header is modelled at the byte level
because `HeaderValue::to_str` can fail on non-visible-ASCII bytes and the
source folds that failure into the missing-header branch.
-/

namespace PaymentService

/-- IEEE-754 double as used by the service: the service only ever compares an
amount against `0.0` and stores it verbatim, so we model the value space as
NaN, the two infinities, and finite values (as exact rationals).  Comparisons
involving NaN are false, as in IEEE-754. -/
inductive F64 where
  | nan : F64
  | inf : F64
  | negInf : F64
  | fin (q : ℚ) : F64
deriving DecidableEq, Repr

/-- IEEE-754 `<=` on the modelled doubles (any comparison with NaN is false). -/
def F64.le : F64 → F64 → Bool
  | .nan, _ => false
  | _, .nan => false
  | .negInf, _ => true
  | _, .inf => true
  | .inf, _ => false
  | _, .negInf => false
  | .fin a, .fin b => decide (a ≤ b)

/-- IEEE-754 `<` on the modelled doubles (any comparison with NaN is false). -/
def F64.lt : F64 → F64 → Bool
  | .nan, _ => false
  | _, .nan => false
  | _, .negInf => false
  | .negInf, _ => true
  | .inf, _ => false
  | _, .inf => true
  | .fin a, .fin b => decide (a < b)

/-- The literal `0.0` of the source's amount check. -/
def fzero : F64 := F64.fin 0

/-- The `struct Payment` of main.rs. -/
structure Payment where
  id : String
  order_id : Int
  user_id : Int
  amount : F64
  currency : String
  status : String
  created_at : String
deriving DecidableEq, Repr

/-- The `struct PaymentRequest` of main.rs (`currency` is optional). -/
structure PaymentRequest where
  order_id : Int
  amount : F64
  currency : Option String
deriving DecidableEq, Repr

/-- The `struct Claims` of main.rs: the JWT payload carries the subject id. -/
structure Claims where
  sub : Int
deriving DecidableEq, Repr

/-- The shared mutable state: the `PaymentsStore` vector and the Prometheus
counter `payment_service_payments_total`.  The lock serialises handler
bodies, so each handler is a function of this state. -/
structure ServiceState where
  store : List Payment
  counter : Nat
deriving DecidableEq, Repr

/-- The store and counter at process start (`Vec::new()`, counter `0`). -/
def initState : ServiceState := { store := [], counter := 0 }

/-- JSON response bodies produced by the handlers. -/
inductive RespBody where
  | payment (p : Payment) : RespBody
  | payments (ps : List Payment) : RespBody
  | error (msg : String) : RespBody
  | healthBody (status service timestamp : String) : RespBody
  | metricsBody (text : String) : RespBody
deriving DecidableEq, Repr

/-- An HTTP response: status code plus JSON body. -/
structure Response where
  status : Nat
  body : RespBody
deriving DecidableEq, Repr

/-- Model of `http::HeaderValue::to_str`: it succeeds only when every byte is visible
ASCII (32–126) or horizontal tab; the resulting string is the bytes read as
characters.  A header value itself may hold opaque bytes up to 255. -/
def headerToStr (bs : List Nat) : Option (List Char) :=
  if bs.all (fun b => (32 ≤ b && b ≤ 126) || b == 9) then
    some (bs.map (fun b => Char.ofNat b))
  else
    none

/-- Model of `str::starts_with` on character lists: first argument is the pattern. -/
def listStartsWith : List Char → List Char → Bool
  | [], _ => true
  | _ :: _, [] => false
  | p :: ps, c :: cs => p == c && listStartsWith ps cs

/-- The character list of a string literal. -/
def chars (s : String) : List Char := s.data

/-- Bytes of an ASCII string, for building concrete header values. -/
def strBytes (s : String) : List Nat := s.data.map Char.toNat

/-- base64url alphabet value of one character. -/
def b64val (c : Char) : Option Nat :=
  if 65 ≤ c.toNat && c.toNat ≤ 90 then some (c.toNat - 65)
  else if 97 ≤ c.toNat && c.toNat ≤ 122 then some (c.toNat - 97 + 26)
  else if 48 ≤ c.toNat && c.toNat ≤ 57 then some (c.toNat - 48 + 52)
  else if c == '-' then some 62
  else if c == '_' then some 63
  else none

/-- Map every character of a base64url string to its 6-bit value. -/
def b64vals : List Char → Option (List Nat)
  | [] => some []
  | c :: cs => (b64val c).bind (fun v => (b64vals cs).map (fun vs => v :: vs))

/-- Reassemble 6-bit groups into bytes (unpadded base64url, as in JWT).
A trailing group of a single character is invalid. -/
def b64chunks : List Nat → Option (List Nat)
  | [] => some []
  | [_] => none
  | [a, b] => some [a * 4 + b / 16]
  | [a, b, c] => some [a * 4 + b / 16, (b % 16) * 16 + c / 4]
  | a :: b :: c :: d :: rest =>
    (b64chunks rest).map
      (fun tail => (a * 4 + b / 16) :: ((b % 16) * 16 + c / 4) :: ((c % 4) * 64 + d) :: tail)

/-- Decode an unpadded base64url string to bytes. -/
def base64urlDecode (cs : List Char) : Option (List Nat) :=
  (b64vals cs).bind b64chunks

/-- Numeric value of a nonempty run of leading decimal-digit bytes. -/
def natFromDigits (bs : List Nat) : Option Nat :=
  let ds := bs.takeWhile (fun b => 48 ≤ b && b ≤ 57)
  if ds.isEmpty then none
  else some (ds.foldl (fun a b => a * 10 + (b - 48)) 0)

/-- Parse the integer value following the `sub` key (optional minus sign). -/
def subValue : List Nat → Option Int
  | 45 :: rest => (natFromDigits rest).map (fun n => -(n : Int))
  | bs => (natFromDigits bs).map (fun n => (n : Int))

/-- Scan a JSON byte sequence for the `"sub":` key and read its integer
value. -/
def findSub : List Nat → Option Int
  | [] => none
  | 34 :: 115 :: 117 :: 98 :: 34 :: 58 :: rest => subValue rest
  | _ :: rest => findSub rest

/-- Modelled from the spec: the `jsonwebtoken::decode::<Claims>` call.  The
library itself is not part of this repository; per the spec, signature
verification is explicitly disabled in this deployment, so decoding is
purely structural — the token must be three dot-separated base64url
segments, and the claims (the integer `sub`) are read from the payload
segment; the signing secret plays no role ("any structurally valid token is
accepted regardless of signer"). -/
def jwtDecode (_secret : String) (token : List Char) : Option Claims :=
  match splitOnDot token with
  | [_, payload, _] =>
    (base64urlDecode payload).bind (fun bytes => (findSub bytes).map Claims.mk)
  | _ => none
where
  /-- Split a character list at every `.`. -/
  splitOnDot : List Char → List (List Char)
    | [] => [[]]
    | c :: rest =>
      let r := splitOnDot rest
      if c == '.' then [] :: r
      else
        match r with
        | [] => [[c]]
        | h :: t => (c :: h) :: t

/-- The function `extract_user_id` of main.rs.  `secret` models the `JWT_SECRET`
environment variable (`none` = unset, read with `unwrap_or_default`);
`auth` models the raw bytes of the `Authorization` header when present.
The source chains `get("Authorization")` and `to_str().ok()` before
`ok_or("Missing Authorization header")`, so a header whose bytes are not
visible ASCII is reported as missing. -/
def extract_user_id (secret : Option String) (auth : Option (List Nat)) :
    Except String Int :=
  match auth.bind headerToStr with
  | none => .error "Missing Authorization header"
  | some a =>
    if listStartsWith (chars "Bearer ") a then
      match jwtDecode (secret.getD "") (a.drop 7) with
      | none => .error "Invalid token: decode error"
      | some claims => .ok claims.sub
    else
      .error "Malformed Authorization header"

/-- The handler `create_payment` of main.rs.  `newId` is the generated UUID and
`createdAt` the RFC-3339 timestamp, both inputs of the model.  The counter
is incremented first, then the caller is authenticated, then the amount is
validated, and only then is the record built and pushed. -/
def create_payment (newId createdAt : String) (secret : Option String)
    (auth : Option (List Nat)) (payload : PaymentRequest) (s : ServiceState) :
    Response × ServiceState :=
  let s1 : ServiceState := { s with counter := s.counter + 1 }
  match extract_user_id secret auth with
  | .error e => ({ status := 401, body := .error e }, s1)
  | .ok user_id =>
    if F64.le payload.amount fzero then
      ({ status := 400, body := .error "Amount must be positive" }, s1)
    else
      let payment : Payment :=
        { id := newId
          order_id := payload.order_id
          user_id := user_id
          amount := payload.amount
          currency := payload.currency.getD "USD"
          status := "completed"
          created_at := createdAt }
      ({ status := 201, body := .payment payment },
        { s1 with store := s1.store ++ [payment] })

/-- The handler `list_payments` of main.rs: authenticate, then filter the store by the
caller's id (insertion order preserved); the state is not modified. -/
def list_payments (secret : Option String) (auth : Option (List Nat))
    (s : ServiceState) : Response × ServiceState :=
  match extract_user_id secret auth with
  | .error e => ({ status := 401, body := .error e }, s)
  | .ok user_id =>
    ({ status := 200,
       body := .payments (s.store.filter (fun p => p.user_id == user_id)) }, s)

/-- The handler `health` of main.rs: constant 200 payload (timestamp is an input). -/
def health (now : String) (s : ServiceState) : Response × ServiceState :=
  ({ status := 200, body := .healthBody "ok" "payment-service" now }, s)

/-- Prometheus text rendering of the counter, abbreviated to the sample
line; no claim depends on the exposition format beyond the counter value. -/
def renderMetrics (c : Nat) : String :=
  "payment_service_payments_total " ++ toString c

/-- The handler `metrics_handler` of main.rs: 200 with the rendered registry; the
state is not modified. -/
def metrics_handler (s : ServiceState) : Response × ServiceState :=
  ({ status := 200, body := .metricsBody (renderMetrics s.counter) }, s)

/-- The payment record `create_payment` builds on the success path, as a
function of its inputs and the authenticated caller. -/
def builtPayment (newId createdAt : String) (uid : Int)
    (payload : PaymentRequest) : Payment :=
  { id := newId
    order_id := payload.order_id
    user_id := uid
    amount := payload.amount
    currency := payload.currency.getD "USD"
    status := "completed"
    created_at := createdAt }

/-- One inbound request to any of the four routes, with its per-request
inputs. -/
inductive Op where
  | create (newId createdAt : String) (secret : Option String)
      (auth : Option (List Nat)) (payload : PaymentRequest) : Op
  | list (secret : Option String) (auth : Option (List Nat)) : Op
  | healthCheck (now : String) : Op
  | metrics : Op

/-- Dispatch one request against the shared state. -/
def step : Op → ServiceState → Response × ServiceState
  | .create newId createdAt secret auth payload, s =>
    create_payment newId createdAt secret auth payload s
  | .list secret auth, s => list_payments secret auth s
  | .healthCheck now, s => health now s
  | .metrics, s => metrics_handler s

/-- One create attempt in a sequence: the claimed owner (`owner`), the raw
header, the body, and the generated id/timestamp. -/
structure CreateEvent where
  owner : Int
  auth : Option (List Nat)
  payload : PaymentRequest
  newId : String
  createdAt : String

/-- The payment record a successful `create_payment` builds for an event. -/
def mkPayment (e : CreateEvent) : Payment :=
  builtPayment e.newId e.createdAt e.owner e.payload

/-- Run a sequence of create attempts, threading the state. -/
def runCreates (secret : Option String) (evs : List CreateEvent)
    (s : ServiceState) : ServiceState :=
  evs.foldl
    (fun st e => (create_payment e.newId e.createdAt secret e.auth e.payload st).2)
    s

/-! ### Helper lemmas -/

theorem create_payment_err (newId createdAt : String) (secret : Option String)
    (auth : Option (List Nat)) (payload : PaymentRequest) (s : ServiceState)
    (e : String) (h : extract_user_id secret auth = .error e) :
    create_payment newId createdAt secret auth payload s =
      ({ status := 401, body := .error e },
        { s with counter := s.counter + 1 }) := by
  simp [create_payment, h]

theorem create_payment_bad (newId createdAt : String) (secret : Option String)
    (auth : Option (List Nat)) (payload : PaymentRequest) (s : ServiceState)
    (uid : Int) (h : extract_user_id secret auth = .ok uid)
    (hle : F64.le payload.amount fzero = true) :
    create_payment newId createdAt secret auth payload s =
      ({ status := 400, body := .error "Amount must be positive" },
        { s with counter := s.counter + 1 }) := by
  simp [create_payment, h, hle]

theorem create_payment_good (newId createdAt : String) (secret : Option String)
    (auth : Option (List Nat)) (payload : PaymentRequest) (s : ServiceState)
    (uid : Int) (h : extract_user_id secret auth = .ok uid)
    (hle : F64.le payload.amount fzero = false) :
    create_payment newId createdAt secret auth payload s =
      ({ status := 201, body := .payment (builtPayment newId createdAt uid payload) },
        { store := s.store ++ [builtPayment newId createdAt uid payload],
          counter := s.counter + 1 }) := by
  simp [create_payment, h, hle, builtPayment]

theorem flt_zero_le_false (a : F64) (h : F64.lt fzero a = true) :
    F64.le a fzero = false := by
  cases a with
  | nan => rfl
  | inf => rfl
  | negInf => simp [F64.lt, fzero] at h
  | fin q =>
    simp only [F64.lt, fzero, decide_eq_true_eq] at h
    exact decide_eq_false (not_le.mpr h)

theorem create_payment_counter (newId createdAt : String) (secret : Option String)
    (auth : Option (List Nat)) (payload : PaymentRequest) (s : ServiceState) :
    ((create_payment newId createdAt secret auth payload s).2).counter =
      s.counter + 1 := by
  rcases h : extract_user_id secret auth with e | uid
  · rw [create_payment_err newId createdAt secret auth payload s e h]
  · rcases hle : F64.le payload.amount fzero with _ | _
    · rw [create_payment_good newId createdAt secret auth payload s uid h hle]
    · rw [create_payment_bad newId createdAt secret auth payload s uid h hle]

theorem runCreates_counter (secret : Option String) (evs : List CreateEvent) :
    ∀ s : ServiceState,
      (runCreates secret evs s).counter = s.counter + evs.length := by
  induction evs with
  | nil => intro s; rfl
  | cons e evs ih =>
    intro s
    have hstep :
        runCreates secret (e :: evs) s =
          runCreates secret evs
            ((create_payment e.newId e.createdAt secret e.auth e.payload s).2) := rfl
    rw [hstep, ih, create_payment_counter, List.length_cons]
    omega

theorem runCreates_store (secret : Option String) (evs : List CreateEvent) :
    ∀ s : ServiceState,
      (∀ e ∈ evs, extract_user_id secret e.auth = .ok e.owner
          ∧ F64.le e.payload.amount fzero = false) →
      (runCreates secret evs s).store = s.store ++ evs.map mkPayment := by
  induction evs with
  | nil => intro s _; simp [runCreates]
  | cons e evs ih =>
    intro s h
    have he := h e (List.mem_cons_self _ _)
    have ht : ∀ e' ∈ evs, extract_user_id secret e'.auth = .ok e'.owner
        ∧ F64.le e'.payload.amount fzero = false :=
      fun e' he' => h e' (List.mem_cons_of_mem _ he')
    have hstep :
        runCreates secret (e :: evs) s =
          runCreates secret evs
            ((create_payment e.newId e.createdAt secret e.auth e.payload s).2) := rfl
    rw [hstep,
      create_payment_good e.newId e.createdAt secret e.auth e.payload s e.owner
        he.1 he.2, ih _ ht]
    simp [mkPayment]

theorem filter_map_owner (A : Int) (evs : List CreateEvent) :
    (evs.map mkPayment).filter (fun p => p.user_id == A)
      = (evs.filter (fun e => e.owner == A)).map mkPayment := by
  induction evs with
  | nil => rfl
  | cons e evs ih =>
    have huid : (mkPayment e).user_id = e.owner := rfl
    rcases h : (e.owner == A) with _ | _
    · simp [List.filter_cons, huid, h, ih]
    · simp [List.filter_cons, huid, h, ih]

/-! ### Claims -/

/-- C1: for every create-payment request with a valid bearer claim and
amount strictly greater than zero, the handler returns 201 with a record
whose amount equals the request amount exactly, whose status is
"completed", whose order id equals the request order id, and whose user id
equals the claim subject. -/
theorem claim1_create_positive (newId createdAt : String)
    (secret : Option String) (auth : Option (List Nat))
    (payload : PaymentRequest) (s : ServiceState) (uid : Int)
    (hauth : extract_user_id secret auth = .ok uid)
    (hpos : F64.lt fzero payload.amount = true) :
    (create_payment newId createdAt secret auth payload s).1 =
      { status := 201,
        body := .payment
          { id := newId
            order_id := payload.order_id
            user_id := uid
            amount := payload.amount
            currency := payload.currency.getD "USD"
            status := "completed"
            created_at := createdAt } } := by
  rw [create_payment_good newId createdAt secret auth payload s uid hauth
    (flt_zero_le_false _ hpos)]
  rfl

/-- Witness for C1: the spec scenario — order 42, amount 19.99, bearer
claim subject 7 — yields 201 with the expected record. -/
theorem claim1_witness :
    (create_payment "id-1" "t0" none
        (some (strBytes "Bearer x.eyJzdWIiOjd9.y"))
        { order_id := 42, amount := F64.fin (mkRat 1999 100), currency := none }
        initState).1 =
      { status := 201,
        body := .payment
          { id := "id-1"
            order_id := 42
            user_id := 7
            amount := F64.fin (mkRat 1999 100)
            currency := "USD"
            status := "completed"
            created_at := "t0" } } :=
  claim1_create_positive "id-1" "t0" none
    (some (strBytes "Bearer x.eyJzdWIiOjd9.y"))
    { order_id := 42, amount := F64.fin (mkRat 1999 100), currency := none }
    initState 7 (by rfl) (by decide)

/-- C2: for every create-payment request with a valid bearer claim and
amount less than or equal to zero, the handler returns 400 with body
error "Amount must be positive" and appends nothing to the store. -/
theorem claim2_create_nonpositive (newId createdAt : String)
    (secret : Option String) (auth : Option (List Nat))
    (payload : PaymentRequest) (s : ServiceState) (uid : Int)
    (hauth : extract_user_id secret auth = .ok uid)
    (hle : F64.le payload.amount fzero = true) :
    (create_payment newId createdAt secret auth payload s).1 =
      { status := 400, body := .error "Amount must be positive" }
    ∧ ((create_payment newId createdAt secret auth payload s).2).store
      = s.store := by
  rw [create_payment_bad newId createdAt secret auth payload s uid hauth hle]
  exact ⟨rfl, rfl⟩

/-- Witness for C2: the spec scenario — order 1, amount -5, valid claim —
yields 400 and leaves the (empty) store unchanged. -/
theorem claim2_witness :
    (create_payment "id-2" "t0" none
        (some (strBytes "Bearer x.eyJzdWIiOjd9.y"))
        { order_id := 1, amount := F64.fin (-5), currency := none }
        initState).1 =
      { status := 400, body := .error "Amount must be positive" }
    ∧ ((create_payment "id-2" "t0" none
        (some (strBytes "Bearer x.eyJzdWIiOjd9.y"))
        { order_id := 1, amount := F64.fin (-5), currency := none }
        initState).2).store = initState.store :=
  claim2_create_nonpositive "id-2" "t0" none
    (some (strBytes "Bearer x.eyJzdWIiOjd9.y"))
    { order_id := 1, amount := F64.fin (-5), currency := none }
    initState 7 (by rfl) (by decide)

/-- C3: after any sequence of successful creations (arbitrary owners,
arbitrarily interleaved) starting from the empty store, list-payments with
A's claim returns exactly the records of the events owned by A, in creation
order — in particular no record of any other owner B ≠ A. -/
theorem claim3_list_isolation (secret : Option String)
    (evs : List CreateEvent) (A : Int) (authA : Option (List Nat))
    (hA : extract_user_id secret authA = .ok A)
    (hvalid : ∀ e ∈ evs, extract_user_id secret e.auth = .ok e.owner
        ∧ F64.le e.payload.amount fzero = false) :
    (list_payments secret authA (runCreates secret evs initState)).1 =
      { status := 200,
        body := .payments
          ((evs.filter (fun e => e.owner == A)).map mkPayment) } := by
  have hs := runCreates_store secret evs initState hvalid
  rw [show (initState : ServiceState).store = [] from rfl, List.nil_append] at hs
  simp [list_payments, hA, hs, filter_map_owner]

/-- Witness for C3: owners 7, 8, 7 interleaved; listing with subject 7's
claim returns exactly the first and third records, in order. -/
theorem claim3_witness :
    (list_payments none (some (strBytes "Bearer x.eyJzdWIiOjd9.y"))
        (runCreates none
          [ { owner := 7, auth := some (strBytes "Bearer x.eyJzdWIiOjd9.y"),
              payload := { order_id := 1, amount := F64.fin 5, currency := none },
              newId := "a", createdAt := "t1" },
            { owner := 8, auth := some (strBytes "Bearer x.eyJzdWIiOjh9.y"),
              payload := { order_id := 2, amount := F64.fin 6, currency := none },
              newId := "b", createdAt := "t2" },
            { owner := 7, auth := some (strBytes "Bearer x.eyJzdWIiOjd9.y"),
              payload := { order_id := 3, amount := F64.fin 7, currency := none },
              newId := "c", createdAt := "t3" } ]
          initState)).1 =
      { status := 200,
        body := .payments
          (([ { owner := 7, auth := some (strBytes "Bearer x.eyJzdWIiOjd9.y"),
                payload := { order_id := 1, amount := F64.fin 5, currency := none },
                newId := "a", createdAt := "t1" },
              { owner := 8, auth := some (strBytes "Bearer x.eyJzdWIiOjh9.y"),
                payload := { order_id := 2, amount := F64.fin 6, currency := none },
                newId := "b", createdAt := "t2" },
              { owner := 7, auth := some (strBytes "Bearer x.eyJzdWIiOjd9.y"),
                payload := { order_id := 3, amount := F64.fin 7, currency := none },
                newId := "c", createdAt := "t3" } ].filter
            (fun e => e.owner == (7 : Int))).map mkPayment) } :=
  claim3_list_isolation none _ 7 (some (strBytes "Bearer x.eyJzdWIiOjd9.y"))
    (by rfl)
    (by
      intro e he
      simp only [List.mem_cons, List.not_mem_nil, or_false] at he
      rcases he with h | h | h <;> subst h <;> exact ⟨by rfl, by decide⟩)

/-- C4: a request with no authorization header gets 401 with an error body
from both create-payment and list-payments, and in the create case the
store is unchanged (list-payments never changes state at all). -/
theorem claim4_missing_header (newId createdAt : String)
    (secret : Option String) (payload : PaymentRequest) (s : ServiceState) :
    ((create_payment newId createdAt secret none payload s).1.status = 401
      ∧ (∃ e, (create_payment newId createdAt secret none payload s).1.body
          = .error e)
      ∧ ((create_payment newId createdAt secret none payload s).2).store
        = s.store)
    ∧ ((list_payments secret none s).1.status = 401
      ∧ (∃ e, (list_payments secret none s).1.body = .error e)
      ∧ (list_payments secret none s).2 = s) := by
  have hmiss : extract_user_id secret none
      = .error "Missing Authorization header" := rfl
  rw [create_payment_err newId createdAt secret none payload s _ hmiss]
  refine ⟨⟨rfl, ⟨_, rfl⟩, rfl⟩, ?_⟩
  simp [list_payments, hmiss]

/-- C5: the metrics counter is incremented exactly once per create-payment
attempt regardless of outcome (the increment precedes authentication and
validation), after K attempts it has grown by exactly K, and no operation
ever decreases it. -/
theorem claim5_counter :
    (∀ (newId createdAt : String) (secret : Option String)
        (auth : Option (List Nat)) (payload : PaymentRequest)
        (s : ServiceState),
      ((create_payment newId createdAt secret auth payload s).2).counter
        = s.counter + 1)
    ∧ (∀ (secret : Option String) (evs : List CreateEvent) (s : ServiceState),
      (runCreates secret evs s).counter = s.counter + evs.length)
    ∧ (∀ (op : Op) (s : ServiceState),
      s.counter ≤ ((step op s).2).counter) := by
  refine ⟨create_payment_counter, fun secret evs s => runCreates_counter secret evs s, ?_⟩
  intro op s
  cases op with
  | create newId createdAt secret auth payload =>
    rw [show step (.create newId createdAt secret auth payload) s
        = create_payment newId createdAt secret auth payload s from rfl,
      create_payment_counter]
    omega
  | list secret auth =>
    rcases h : extract_user_id secret auth with e | uid <;>
      simp [step, list_payments, h]
  | healthCheck now => exact Nat.le_refl _
  | metrics => exact Nat.le_refl _

/-- C7: on a successful creation the record's currency is the request's
currency when supplied and the fixed code "USD" when the request omits it
(`Option.getD "USD"`, exactly the source's `unwrap_or_else`). -/
theorem claim7_currency (newId createdAt : String) (secret : Option String)
    (auth : Option (List Nat)) (payload : PaymentRequest) (s : ServiceState)
    (uid : Int) (hauth : extract_user_id secret auth = .ok uid)
    (hle : F64.le payload.amount fzero = false) :
    (create_payment newId createdAt secret auth payload s).1.body =
      .payment
        { id := newId
          order_id := payload.order_id
          user_id := uid
          amount := payload.amount
          currency := payload.currency.getD "USD"
          status := "completed"
          created_at := createdAt } := by
  rw [create_payment_good newId createdAt secret auth payload s uid hauth hle]
  rfl

/-- Witness for C7: a request supplying currency "EUR" gets a record with
currency "EUR" (and the C1 witness exercises the "USD" default). -/
theorem claim7_witness :
    (create_payment "id-3" "t0" none
        (some (strBytes "Bearer x.eyJzdWIiOjd9.y"))
        { order_id := 9, amount := F64.fin 5, currency := some "EUR" }
        initState).1.body =
      .payment
        { id := "id-3"
          order_id := 9
          user_id := 7
          amount := F64.fin 5
          currency := "EUR"
          status := "completed"
          created_at := "t0" } :=
  claim7_currency "id-3" "t0" none
    (some (strBytes "Bearer x.eyJzdWIiOjd9.y"))
    { order_id := 9, amount := F64.fin 5, currency := some "EUR" }
    initState 7 (by rfl) (by decide)

/-- C8: the store is append-only — every operation leaves the prior stored
sequence as a prefix of the new one and appends at most one record. -/
theorem claim8_append_only (op : Op) (s : ServiceState) :
    ∃ t : List Payment,
      ((step op s).2).store = s.store ++ t ∧ t.length ≤ 1 := by
  cases op with
  | create newId createdAt secret auth payload =>
    rcases h : extract_user_id secret auth with e | uid
    · exact ⟨[], by
        rw [show step (.create newId createdAt secret auth payload) s
            = create_payment newId createdAt secret auth payload s from rfl,
          create_payment_err newId createdAt secret auth payload s e h]
        simp, by simp⟩
    · rcases hle : F64.le payload.amount fzero with _ | _
      · exact ⟨[builtPayment newId createdAt uid payload], by
          rw [show step (.create newId createdAt secret auth payload) s
              = create_payment newId createdAt secret auth payload s from rfl,
            create_payment_good newId createdAt secret auth payload s uid h hle],
          by simp⟩
      · exact ⟨[], by
          rw [show step (.create newId createdAt secret auth payload) s
              = create_payment newId createdAt secret auth payload s from rfl,
            create_payment_bad newId createdAt secret auth payload s uid h hle]
          simp, by simp⟩
  | list secret auth =>
    refine ⟨[], ?_, by simp⟩
    rcases h : extract_user_id secret auth with e | uid <;>
      simp [step, list_payments, h]
  | healthCheck now => exact ⟨[], by simp [step, health], by simp⟩
  | metrics => exact ⟨[], by simp [step, metrics_handler], by simp⟩

/-- C9: with a valid bearer claim and amount NaN, the check
`amount <= 0.0` is false, so the request is not rejected: a record with a
NaN amount is appended and the handler returns 201. -/
theorem claim9_nan_accepted (newId createdAt : String)
    (secret : Option String) (auth : Option (List Nat))
    (payload : PaymentRequest) (s : ServiceState) (uid : Int)
    (hauth : extract_user_id secret auth = .ok uid)
    (hnan : payload.amount = F64.nan) :
    F64.le payload.amount fzero = false
    ∧ (create_payment newId createdAt secret auth payload s).1.status = 201
    ∧ ((create_payment newId createdAt secret auth payload s).2).store
      = s.store ++
        [{ id := newId
           order_id := payload.order_id
           user_id := uid
           amount := F64.nan
           currency := payload.currency.getD "USD"
           status := "completed"
           created_at := createdAt }] := by
  have hle : F64.le payload.amount fzero = false := by rw [hnan]; rfl
  rw [create_payment_good newId createdAt secret auth payload s uid hauth hle]
  refine ⟨hle, rfl, ?_⟩
  simp [builtPayment, hnan]

/-- Witness for C9: a NaN amount with subject 7's claim yields 201 and the
NaN record is appended to the empty store. -/
theorem claim9_witness :
    F64.le (PaymentRequest.amount
        { order_id := 4, amount := F64.nan, currency := none }) fzero = false
    ∧ (create_payment "id-4" "t0" none
        (some (strBytes "Bearer x.eyJzdWIiOjd9.y"))
        { order_id := 4, amount := F64.nan, currency := none }
        initState).1.status = 201
    ∧ ((create_payment "id-4" "t0" none
        (some (strBytes "Bearer x.eyJzdWIiOjd9.y"))
        { order_id := 4, amount := F64.nan, currency := none }
        initState).2).store
      = initState.store ++
        [{ id := "id-4"
           order_id := 4
           user_id := 7
           amount := F64.nan
           currency := (none : Option String).getD "USD"
           status := "completed"
           created_at := "t0" }] :=
  claim9_nan_accepted "id-4" "t0" none
    (some (strBytes "Bearer x.eyJzdWIiOjd9.y"))
    { order_id := 4, amount := F64.nan, currency := none }
    initState 7 (by rfl) (by rfl)

/-- C6 counterexample: a present Authorization header whose single byte 200
is not visible ASCII makes `to_str` fail, and the source's
`and_then(to_str).ok_or(...)` reports the missing-credential error even
though the header is present — so "missing-credential iff the header is
absent" is false as stated. -/
theorem claim6_counterexample :
    extract_user_id none (some [200]) = .error "Missing Authorization header"
    ∧ (some [200] : Option (List Nat)) ≠ none :=
  ⟨by rfl, by simp⟩

/-- C6 (amended): the extractor fails with the missing-credential error iff
the header is absent or its bytes are not a visible-ASCII string; fails
with the malformed-credential error iff the header converts to a string
that does not start with "Bearer "; fails with the invalid-credential error
iff the bearer token does not decode to a claims structure; and otherwise
returns exactly the decoded claim subject.  (It is a pure function of the
secret and the header: it touches neither store nor counter.) -/
theorem claim6_extract_cases (secret : Option String)
    (auth : Option (List Nat)) :
    (extract_user_id secret auth = .error "Missing Authorization header"
      ↔ auth.bind headerToStr = none)
    ∧ (extract_user_id secret auth = .error "Malformed Authorization header"
      ↔ ∃ a, auth.bind headerToStr = some a
          ∧ listStartsWith (chars "Bearer ") a = false)
    ∧ (extract_user_id secret auth = .error "Invalid token: decode error"
      ↔ ∃ a, auth.bind headerToStr = some a
          ∧ listStartsWith (chars "Bearer ") a = true
          ∧ jwtDecode (secret.getD "") (a.drop 7) = none)
    ∧ (∀ uid : Int, extract_user_id secret auth = .ok uid
      ↔ ∃ a, auth.bind headerToStr = some a
          ∧ listStartsWith (chars "Bearer ") a = true
          ∧ jwtDecode (secret.getD "") (a.drop 7) = some { sub := uid }) := by
  rcases h : auth.bind headerToStr with _ | a
  · exact ⟨by simp [extract_user_id, h], by simp [extract_user_id, h],
      by simp [extract_user_id, h], by simp [extract_user_id, h]⟩
  · rcases hb : listStartsWith (chars "Bearer ") a with _ | _
    · exact ⟨by simp [extract_user_id, h, hb], by simp [extract_user_id, h, hb],
        by simp [extract_user_id, h, hb], by simp [extract_user_id, h, hb]⟩
    · rcases hd : jwtDecode (secret.getD "") (a.drop 7) with _ | c
      · exact ⟨by simp [extract_user_id, h, hb, hd],
          by simp [extract_user_id, h, hb, hd],
          by simp [extract_user_id, h, hb, hd],
          by simp [extract_user_id, h, hb, hd]⟩
      · obtain ⟨csub⟩ := c
        refine ⟨by simp [extract_user_id, h, hb, hd],
          by simp [extract_user_id, h, hb, hd],
          by simp [extract_user_id, h, hb, hd], ?_⟩
        intro uid
        constructor
        · intro hok
          refine ⟨a, rfl, hb, ?_⟩
          rw [hd]
          simp only [extract_user_id, h, hb, hd, if_true] at hok
          cases hok
          rfl
        · rintro ⟨a', ha', _, hdec⟩
          cases ha'
          rw [hd] at hdec
          cases hdec
          simp [extract_user_id, h, hb, hd]

/-- C10: the claim extractor is independent of the JWT_SECRET environment
variable (unset modelled as `none`, read with `unwrap_or_default`): with
signature validation disabled, its result depends only on the request
header. -/
theorem claim10_secret_noninterference (s1 s2 : Option String)
    (auth : Option (List Nat)) :
    extract_user_id s1 auth = extract_user_id s2 auth := by
  rcases h : auth.bind headerToStr with _ | a <;>
    simp [extract_user_id, jwtDecode, h]

end PaymentService
